import Mathlib

/-!
Verification of the state-reconciliation layer of the Fernschreiber
Telegram client (`src/tdlibwrapper.cpp`).  The update handlers operate on
`QVariant`/`QVariantMap` values; we embed them shallowly: `QVariant`
becomes the inductive `Variant`, `QVariantMap` an association list with
QMap's replace-on-insert semantics, and each handler a pure function from
a wrapper state to a new state paired with the list of Qt signals it
emits, in emission order.
-/

namespace TDLibWrapper

/-- Shallow embedding of `QVariant`, restricted to the payload shapes the
handlers under study actually receive: null (default-constructed),
strings, and string-keyed maps (`QVariantMap`). -/
inductive Variant where
  | vNull : Variant
  | vStr : String → Variant
  | vMap : List (String × Variant) → Variant

/-- Embeds `QVariantMap`: a string-keyed map, embedded as an association list
without duplicate keys (all mutation goes through `mapInsert`). -/
abbrev VariantMap := List (String × Variant)

/-- Embeds `QMap::insert`: replace the value when the key is present, otherwise
add a new binding. -/
def mapInsert (k : String) (v : Variant) : VariantMap → VariantMap
  | [] => [(k, v)]
  | (k', v') :: rest =>
      if k = k' then (k, v) :: rest else (k', v') :: mapInsert k v rest

/-- Embeds `QMap::value`: the stored value, or a default-constructed (null)
`QVariant` when the key is absent. -/
def mapValue (m : VariantMap) (k : String) : Variant :=
  match m with
  | [] => .vNull
  | (k', v) :: rest => if k = k' then v else mapValue rest k

/-- Embeds `QMap::contains`. -/
def mapContains (m : VariantMap) (k : String) : Bool :=
  match m with
  | [] => false
  | (k', _) :: rest => if k = k' then true else mapContains rest k

/-- Embeds `QVariant::toString`: the held string, or the empty string for null
and for map-valued variants (Qt cannot render a map as a string). -/
def Variant.toString : Variant → String
  | .vStr s => s
  | _ => ""

/-- Embeds `QVariant::toMap`: the held map, or an empty map for the other
shapes. -/
def Variant.toMap : Variant → VariantMap
  | .vMap m => m
  | _ => []

/-- The authorization states assigned by
`TDLibWrapper::handleAuthorizationStateChanged`. -/
inductive AuthorizationState where
  | Closed
  | Closing
  | LoggingOut
  | AuthorizationReady
  | WaitCode
  | WaitEncryptionKey
  | WaitOtherDeviceConfirmation
  | WaitPassword
  | WaitPhoneNumber
  | WaitRegistration
  | WaitTdlibParameters
deriving DecidableEq, Repr

/-- Embeds `TDLibWrapper::ChatMemberStatus` (values used by
`chatMemberStatusFromString`). -/
inductive ChatMemberStatus where
  | ChatMemberStatusUnknown
  | ChatMemberStatusMember
  | ChatMemberStatusLeft
  | ChatMemberStatusCreator
  | ChatMemberStatusAdministrator
  | ChatMemberStatusRestricted
  | ChatMemberStatusBanned
deriving DecidableEq, Repr

/-- Embeds `TDLibWrapper::Group`: a group record with its numeric id and its
metadata map (`groupInfo`). -/
structure Group where
  groupId : Int
  groupInfo : VariantMap

/-- Embeds `QHash<qlonglong, Group*>`: the basic/super group registries.  The
C++ hash stores pointers and `value` yields `nullptr` on a miss; we model
a lookup result as `Option Group`. -/
abbrev GroupsMap := List (Int × Group)

/-- Embeds `QHash::value` on a group registry: `none` models the null pointer
returned on a miss. -/
def groupsValue (m : GroupsMap) (k : Int) : Option Group :=
  match m with
  | [] => none
  | (k', g) :: rest => if k = k' then some g else groupsValue rest k

/-- Embeds `QHash::insert` on a group registry (replace on existing key). -/
def groupsInsert (k : Int) (g : Group) : GroupsMap → GroupsMap
  | [] => [(k, g)]
  | (k', g') :: rest =>
      if k = k' then (k, g) :: rest else (k', g') :: groupsInsert k g rest

/-- The Qt signals emitted by the handlers under study, in the order the
`emit` statements fire. -/
inductive Signal where
  | optionUpdated (name : String) (value : Variant)
  | ownUserIdFound (ownUserId : String)
  | userUpdated (userId : String) (info : VariantMap)
  | newChatDiscovered (chatId : String) (info : VariantMap)
  | unreadMessageCountUpdated (info : VariantMap)
  | unreadChatCountUpdated (info : VariantMap)
  | authorizationStateChanged (s : AuthorizationState)
  | basicGroupUpdated (groupId : Int)
  | superGroupUpdated (groupId : Int)

/-- The mutable member state of `TDLibWrapper` touched by the handlers
under study. -/
structure WrapperState where
  options : VariantMap
  allUsers : VariantMap
  userInformation : VariantMap
  chats : VariantMap
  unreadMessageInformation : VariantMap
  unreadChatInformation : VariantMap
  basicGroups : GroupsMap
  superGroups : GroupsMap
  authorizationState : AuthorizationState

/-- A wrapper state with every container empty (the authorization state
before any update is immaterial to the claims; we pick `Closed`). -/
def emptyWrapperState : WrapperState :=
  { options := [], allUsers := [], userInformation := [], chats := [],
    unreadMessageInformation := [], unreadChatInformation := [],
    basicGroups := [], superGroups := [],
    authorizationState := .Closed }

/-- Embeds `TDLibWrapper::handleOptionUpdated`: store the option, emit
`optionUpdated`, and additionally emit `ownUserIdFound` when the option
name is `my_id`. -/
def handleOptionUpdated (st : WrapperState) (optionName : String)
    (optionValue : Variant) : WrapperState × List Signal :=
  let st' := { st with options := mapInsert optionName optionValue st.options }
  if optionName = "my_id" then
    (st', [Signal.optionUpdated optionName optionValue,
           Signal.ownUserIdFound optionValue.toString])
  else
    (st', [Signal.optionUpdated optionName optionValue])

/-- Embeds `TDLibWrapper::handleUserUpdated`: mirror the record into the
own-user slot when its id matches the stored `my_id` option, store the
record wholesale in `allUsers`, and emit `userUpdated`. -/
def handleUserUpdated (st : WrapperState) (userInformation : VariantMap) :
    WrapperState × List Signal :=
  let updatedUserId := (mapValue userInformation "id").toString
  let st1 :=
    if updatedUserId = (mapValue st.options "my_id").toString then
      { st with userInformation := userInformation }
    else st
  ({ st1 with allUsers :=
       mapInsert updatedUserId (.vMap userInformation) st1.allUsers },
   [Signal.userUpdated updatedUserId userInformation])

/-- Embeds `TDLibWrapper::handleUserStatusUpdated`: replace the `status` field
of the own-user slot when the id matches the stored `my_id` option,
replace the `status` field of the `allUsers` record, and emit
`userUpdated` with the updated record. -/
def handleUserStatusUpdated (st : WrapperState) (userId : String)
    (userStatusInformation : VariantMap) : WrapperState × List Signal :=
  let st1 :=
    if userId = (mapValue st.options "my_id").toString then
      { st with userInformation :=
          mapInsert "status" (.vMap userStatusInformation) st.userInformation }
    else st
  let updatedUserInformation :=
    mapInsert "status" (.vMap userStatusInformation)
      (mapValue st1.allUsers userId).toMap
  ({ st1 with allUsers :=
       mapInsert userId (.vMap updatedUserInformation) st1.allUsers },
   [Signal.userUpdated userId updatedUserInformation])

/-- Embeds `TDLibWrapper::handleNewChatDiscovered`: store the incoming chat
record wholesale under its id and emit `newChatDiscovered`. -/
def handleNewChatDiscovered (st : WrapperState) (chatInformation : VariantMap) :
    WrapperState × List Signal :=
  let chatId := (mapValue chatInformation "id").toString
  ({ st with chats := mapInsert chatId (.vMap chatInformation) st.chats },
   [Signal.newChatDiscovered chatId chatInformation])

/-- Embeds `TDLibWrapper::handleUnreadMessageCountUpdated`: replace the unread
message snapshot and emit, but only when `chat_list_type` is
`chatListMain`; otherwise do nothing. -/
def handleUnreadMessageCountUpdated (st : WrapperState)
    (messageCountInformation : VariantMap) : WrapperState × List Signal :=
  if (mapValue messageCountInformation "chat_list_type").toString
      = "chatListMain" then
    ({ st with unreadMessageInformation := messageCountInformation },
     [Signal.unreadMessageCountUpdated messageCountInformation])
  else
    (st, [])

/-- Embeds `TDLibWrapper::handleUnreadChatCountUpdated`: replace the unread chat
snapshot and emit, but only when `chat_list_type` is `chatListMain`;
otherwise do nothing. -/
def handleUnreadChatCountUpdated (st : WrapperState)
    (chatCountInformation : VariantMap) : WrapperState × List Signal :=
  if (mapValue chatCountInformation "chat_list_type").toString
      = "chatListMain" then
    ({ st with unreadChatInformation := chatCountInformation },
     [Signal.unreadChatCountUpdated chatCountInformation])
  else
    (st, [])

/-- Embeds `TDLibWrapper::handleAuthorizationStateChanged`: a chain of
independent `if` statements that update the stored state for each of the
eleven recognized strings, followed by an unconditional emission of the
stored state.  (The `setEncryptionKey`/`setInitialParameters` calls in
two branches send outbound backend requests; they touch no wrapper
state.) -/
def handleAuthorizationStateChanged (st : WrapperState)
    (authorizationState : String) : WrapperState × List Signal :=
  let st := if authorizationState = "authorizationStateClosed" then
    { st with authorizationState := .Closed } else st
  let st := if authorizationState = "authorizationStateClosing" then
    { st with authorizationState := .Closing } else st
  let st := if authorizationState = "authorizationStateLoggingOut" then
    { st with authorizationState := .LoggingOut } else st
  let st := if authorizationState = "authorizationStateReady" then
    { st with authorizationState := .AuthorizationReady } else st
  let st := if authorizationState = "authorizationStateWaitCode" then
    { st with authorizationState := .WaitCode } else st
  let st := if authorizationState = "authorizationStateWaitEncryptionKey" then
    { st with authorizationState := .WaitEncryptionKey } else st
  let st := if authorizationState = "authorizationStateWaitOtherDeviceConfirmation" then
    { st with authorizationState := .WaitOtherDeviceConfirmation } else st
  let st := if authorizationState = "authorizationStateWaitPassword" then
    { st with authorizationState := .WaitPassword } else st
  let st := if authorizationState = "authorizationStateWaitPhoneNumber" then
    { st with authorizationState := .WaitPhoneNumber } else st
  let st := if authorizationState = "authorizationStateWaitRegistration" then
    { st with authorizationState := .WaitRegistration } else st
  let st := if authorizationState = "authorizationStateWaitTdlibParameters" then
    { st with authorizationState := .WaitTdlibParameters } else st
  (st, [Signal.authorizationStateChanged st.authorizationState])

/-- Embeds `TDLibWrapper::updateGroup`: look up the group in the given registry,
allocate a fresh record when absent, then overwrite its `groupInfo`
wholesale.  Returns the updated group together with the updated
registry (the C++ version mutates a shared object in place). -/
def updateGroup (groupId : Int) (groupInfo : VariantMap)
    (groups : GroupsMap) : Group × GroupsMap :=
  let group :=
    match groupsValue groups groupId with
    | some g => g
    | none => { groupId := groupId, groupInfo := [] }
  let group := { group with groupInfo := groupInfo }
  (group, groupsInsert groupId group groups)

/-- Embeds `TDLibWrapper::handleBasicGroupUpdated`. -/
def handleBasicGroupUpdated (st : WrapperState) (groupId : Int)
    (groupInformation : VariantMap) : WrapperState × List Signal :=
  let (group, basicGroups) := updateGroup groupId groupInformation st.basicGroups
  ({ st with basicGroups := basicGroups },
   [Signal.basicGroupUpdated group.groupId])

/-- Embeds `TDLibWrapper::handleSuperGroupUpdated`. -/
def handleSuperGroupUpdated (st : WrapperState) (groupId : Int)
    (groupInformation : VariantMap) : WrapperState × List Signal :=
  let (group, superGroups) := updateGroup groupId groupInformation st.superGroups
  ({ st with superGroups := superGroups },
   [Signal.superGroupUpdated group.groupId])

/-- Embeds `TDLibWrapper::getGroup`: id 0 yields the null pointer; otherwise the
super-group registry is consulted first with the basic-group registry as
fallback. -/
def getGroup (st : WrapperState) (groupId : Int) : Option Group :=
  if groupId ≠ 0 then
    match groupsValue st.superGroups groupId with
    | some group => some group
    | none => groupsValue st.basicGroups groupId
  else
    none

/-- Embeds `TDLibWrapper::chatMemberStatusFromString`: the fixed string → enum
table, defaulting to `ChatMemberStatusUnknown`. -/
def chatMemberStatusFromString (status : String) : ChatMemberStatus :=
  if status = "chatMemberStatusMember" then .ChatMemberStatusMember
  else if status = "chatMemberStatusLeft" then .ChatMemberStatusLeft
  else if status = "chatMemberStatusCreator" then .ChatMemberStatusCreator
  else if status = "chatMemberStatusAdministrator" then .ChatMemberStatusAdministrator
  else if status = "chatMemberStatusRestricted" then .ChatMemberStatusRestricted
  else if status = "chatMemberStatusBanned" then .ChatMemberStatusBanned
  else .ChatMemberStatusUnknown

/-- The local `statusType` of `TDLibWrapper::Group::chatMemberStatus`:
`groupInfo.value("status").toMap().value("@type").toString()`. -/
def Group.statusType (g : Group) : String :=
  (mapValue (mapValue g.groupInfo "status").toMap "@type").toString

/-- Embeds `TDLibWrapper::Group::chatMemberStatus`: empty status type yields
`ChatMemberStatusUnknown`, otherwise the table lookup. -/
def Group.chatMemberStatus (g : Group) : ChatMemberStatus :=
  if g.statusType.isEmpty then .ChatMemberStatusUnknown
  else chatMemberStatusFromString g.statusType

/-- Embeds `TDLibWrapper::getUserInformation()` (no argument): the own-user
slot. -/
def getUserInformation (st : WrapperState) : VariantMap :=
  st.userInformation

/-- Embeds `TDLibWrapper::getUserInformation(userId)`:
`allUsers.value(userId).toMap()`. -/
def getUserInformationFor (st : WrapperState) (userId : String) : VariantMap :=
  (mapValue st.allUsers userId).toMap

/-- Embeds `TDLibWrapper::getChat`. -/
def getChat (st : WrapperState) (chatId : String) : VariantMap :=
  (mapValue st.chats chatId).toMap

/-- Embeds `TDLibWrapper::getUnreadMessageInformation`. -/
def getUnreadMessageInformation (st : WrapperState) : VariantMap :=
  st.unreadMessageInformation

/-- Embeds `TDLibWrapper::getUnreadChatInformation`. -/
def getUnreadChatInformation (st : WrapperState) : VariantMap :=
  st.unreadChatInformation

/-- The six member-status strings recognized by
`chatMemberStatusFromString`. -/
def recognizedMemberStatusStrings : List String :=
  ["chatMemberStatusMember", "chatMemberStatusLeft",
   "chatMemberStatusCreator", "chatMemberStatusAdministrator",
   "chatMemberStatusRestricted", "chatMemberStatusBanned"]

/-- The eleven authorization-state strings recognized by
`handleAuthorizationStateChanged`. -/
def recognizedAuthorizationStateStrings : List String :=
  ["authorizationStateClosed", "authorizationStateClosing",
   "authorizationStateLoggingOut", "authorizationStateReady",
   "authorizationStateWaitCode", "authorizationStateWaitEncryptionKey",
   "authorizationStateWaitOtherDeviceConfirmation",
   "authorizationStateWaitPassword", "authorizationStateWaitPhoneNumber",
   "authorizationStateWaitRegistration",
   "authorizationStateWaitTdlibParameters"]

/-- Folding a list of status updates over the handlers, used to state the
interleaving behavior of `handleUserStatusUpdated`. -/
def applyStatusList (st : WrapperState) (userId : String)
    (ss : List VariantMap) : WrapperState :=
  ss.foldl (fun s info => (handleUserStatusUpdated s userId info).1) st

theorem mapValue_mapInsert_self (k : String) (v : Variant) (m : VariantMap) :
    mapValue (mapInsert k v m) k = v := by
  induction m with
  | nil => simp [mapInsert, mapValue]
  | cons hd tl ih =>
      obtain ⟨k', v'⟩ := hd
      by_cases h : k = k' <;> simp [mapInsert, mapValue, h, ih]

theorem mapValue_mapInsert_ne (k k' : String) (v : Variant) (m : VariantMap)
    (h : k' ≠ k) : mapValue (mapInsert k v m) k' = mapValue m k' := by
  induction m with
  | nil => simp [mapInsert, mapValue, h]
  | cons hd tl ih =>
      obtain ⟨k'', v''⟩ := hd
      by_cases hk : k = k''
      · subst hk
        simp [mapInsert, mapValue, h]
      · by_cases hk' : k' = k'' <;> simp [mapInsert, mapValue, hk, hk', ih]

theorem mapInsert_mapInsert_same (k : String) (v w : Variant)
    (m : VariantMap) :
    mapInsert k v (mapInsert k w m) = mapInsert k v m := by
  induction m with
  | nil => simp [mapInsert]
  | cons hd tl ih =>
      obtain ⟨k', v'⟩ := hd
      by_cases h : k = k' <;> simp [mapInsert, h, ih]

theorem mapValue_of_not_mapContains (m : VariantMap) (k : String)
    (h : mapContains m k = false) : mapValue m k = .vNull := by
  induction m with
  | nil => rfl
  | cons hd tl ih =>
      obtain ⟨k', v'⟩ := hd
      by_cases hk : k = k'
      · simp [mapContains, hk] at h
      · simp [mapContains, mapValue, hk] at h ⊢
        exact ih h

/-- C1 (counterexample): with `my_id` already stored as `"42"`, recording
the option `my_id` with the same value `"42"` again emits
`ownUserIdFound` — refuting the claim that recording an unchanged
`my_id` value does not emit the signal again. -/
theorem C1_counterexample :
    (handleOptionUpdated
        { emptyWrapperState with options := [("my_id", Variant.vStr "42")] }
        "my_id" (Variant.vStr "42")).2
      = [Signal.optionUpdated "my_id" (Variant.vStr "42"),
         Signal.ownUserIdFound "42"] := by
  simp [handleOptionUpdated, Variant.toString]

/-- C1 (amended): `handleOptionUpdated` stores the option value under its
name and emits `ownUserIdFound` exactly once on every call whose option
name is `my_id` — regardless of whether the incoming value equals the
currently stored `my_id` value — and never for any other option name. -/
theorem C1_amended (st : WrapperState) (optionName : String)
    (optionValue : Variant) :
    (handleOptionUpdated st optionName optionValue).1.options
        = mapInsert optionName optionValue st.options
    ∧ (handleOptionUpdated st optionName optionValue).2
        = (if optionName = "my_id" then
            [Signal.optionUpdated optionName optionValue,
             Signal.ownUserIdFound optionValue.toString]
          else
            [Signal.optionUpdated optionName optionValue]) := by
  by_cases h : optionName = "my_id" <;>
    simp [handleOptionUpdated, h]

/-- C2 (counterexample): with an existing record for chat `"1"` carrying
an `extra` key, `handleNewChatDiscovered` for chat `"1"` with a field map
lacking `extra` drops the old `extra` value (the lookup yields the null
variant, not the previously stored `"x"`) — refuting the claim that
top-level keys absent from the incoming map keep their old values. -/
theorem C2_counterexample :
    mapValue
        (getChat
          ((handleNewChatDiscovered
              { emptyWrapperState with chats :=
                  [("1", Variant.vMap
                      [("id", Variant.vStr "1"), ("title", Variant.vStr "a"),
                       ("extra", Variant.vStr "x")])] }
              [("id", Variant.vStr "1"), ("title", Variant.vStr "b")]).1)
          "1")
        "extra"
      = Variant.vNull
    ∧ Variant.vNull ≠ Variant.vStr "x" :=
  ⟨rfl, fun h => Variant.noConfusion h⟩

/-- C2 (amended): `handleNewChatDiscovered` stores the incoming field map
wholesale under the incoming id: it inserts a new record when the id is
absent and replaces the whole existing record otherwise, so the stored
record afterwards is exactly the incoming map (keys of the old record
absent from the incoming map are dropped, not kept). -/
theorem C2_amended (st : WrapperState) (chatInformation : VariantMap) :
    (handleNewChatDiscovered st chatInformation).1.chats
        = mapInsert (mapValue chatInformation "id").toString
            (.vMap chatInformation) st.chats
    ∧ getChat (handleNewChatDiscovered st chatInformation).1
          (mapValue chatInformation "id").toString
        = chatInformation := by
  refine ⟨rfl, ?_⟩
  simp [getChat, handleNewChatDiscovered, mapValue_mapInsert_self,
    Variant.toMap]

/-- C6: `getGroup` applied to id 0 returns the null pointer (absent) in
every registry state, including states where a group was registered
under id 0 in either namespace. -/
theorem C6 (st : WrapperState) : getGroup st 0 = none := by
  simp [getGroup]

/-- C9: replaying the identical `handleNewChatDiscovered` payload leaves
the wrapper state identical to applying it once (the chat store insert
is idempotent). -/
theorem C9 (st : WrapperState) (chatInformation : VariantMap) :
    (handleNewChatDiscovered
        (handleNewChatDiscovered st chatInformation).1 chatInformation).1
      = (handleNewChatDiscovered st chatInformation).1 := by
  simp [handleNewChatDiscovered, mapInsert_mapInsert_same]

/-- C5: for a nonzero group id, `getGroup` returns the super-group entry
whenever one is registered under that id — also when a basic-group entry
is registered under the same id — and falls back to the basic-group
namespace when no super-group entry exists for the id. -/
theorem C5 :
    (∀ (st : WrapperState) (groupId : Int) (g : Group),
        groupId ≠ 0 →
        groupsValue st.superGroups groupId = some g →
        getGroup st groupId = some g)
    ∧ (∀ (st : WrapperState) (groupId : Int),
        groupId ≠ 0 →
        groupsValue st.superGroups groupId = none →
        getGroup st groupId = groupsValue st.basicGroups groupId) := by
  constructor
  · intro st groupId g h hs
    simp [getGroup, h, hs]
  · intro st groupId h hs
    simp [getGroup, h, hs]

/-- C5 (witness): a registry holding a super-group and a basic-group with
distinct metadata under the same id 5 resolves `getGroup 5` to the
super-group entry; a registry holding only a basic-group under id 7
resolves `getGroup 7` to it. -/
theorem C5_witness :
    getGroup
        { emptyWrapperState with
            superGroups := [(5, ⟨5, [("kind", Variant.vStr "super")]⟩)],
            basicGroups := [(5, ⟨5, [("kind", Variant.vStr "basic")]⟩)] }
        5
      = some ⟨5, [("kind", Variant.vStr "super")]⟩
    ∧ getGroup
        { emptyWrapperState with
            basicGroups := [(7, ⟨7, [("kind", Variant.vStr "basic")]⟩)] }
        7
      = some ⟨7, [("kind", Variant.vStr "basic")]⟩ :=
  ⟨C5.1 _ 5 _ (by decide) rfl,
   (C5.2
      { emptyWrapperState with
          basicGroups := [(7, ⟨7, [("kind", Variant.vStr "basic")]⟩)] }
      7 (by decide) rfl).trans rfl⟩

/-- C8: an unread-message-count or unread-chat-count update whose
`chat_list_type` differs from `chatListMain` leaves the whole wrapper
state unchanged (so both unread getters return their previous values)
and emits no signal; an update with `chat_list_type = chatListMain`
replaces the matching snapshot wholesale and emits the matching
signal. -/
theorem C8 :
    (∀ (st : WrapperState) (info : VariantMap),
        (mapValue info "chat_list_type").toString ≠ "chatListMain" →
        handleUnreadMessageCountUpdated st info = (st, []))
    ∧ (∀ (st : WrapperState) (info : VariantMap),
        (mapValue info "chat_list_type").toString ≠ "chatListMain" →
        handleUnreadChatCountUpdated st info = (st, []))
    ∧ (∀ (st : WrapperState) (info : VariantMap),
        (mapValue info "chat_list_type").toString = "chatListMain" →
        handleUnreadMessageCountUpdated st info
          = ({ st with unreadMessageInformation := info },
             [Signal.unreadMessageCountUpdated info]))
    ∧ (∀ (st : WrapperState) (info : VariantMap),
        (mapValue info "chat_list_type").toString = "chatListMain" →
        handleUnreadChatCountUpdated st info
          = ({ st with unreadChatInformation := info },
             [Signal.unreadChatCountUpdated info])) := by
  refine ⟨?_, ?_, ?_, ?_⟩ <;> intro st info h <;>
    simp [handleUnreadMessageCountUpdated, handleUnreadChatCountUpdated, h]

/-- C8 (witness): a message-count update for `chatListArchive` is a
complete no-op, and one for `chatListMain` replaces the snapshot. -/
theorem C8_witness :
    handleUnreadMessageCountUpdated emptyWrapperState
        [("chat_list_type", Variant.vStr "chatListArchive"),
         ("unread_count", Variant.vStr "3")]
      = (emptyWrapperState, [])
    ∧ handleUnreadChatCountUpdated emptyWrapperState
        [("chat_list_type", Variant.vStr "chatListArchive")]
      = (emptyWrapperState, [])
    ∧ handleUnreadMessageCountUpdated emptyWrapperState
        [("chat_list_type", Variant.vStr "chatListMain")]
      = ({ emptyWrapperState with unreadMessageInformation :=
             [("chat_list_type", Variant.vStr "chatListMain")] },
         [Signal.unreadMessageCountUpdated
             [("chat_list_type", Variant.vStr "chatListMain")]])
    ∧ handleUnreadChatCountUpdated emptyWrapperState
        [("chat_list_type", Variant.vStr "chatListMain")]
      = ({ emptyWrapperState with unreadChatInformation :=
             [("chat_list_type", Variant.vStr "chatListMain")] },
         [Signal.unreadChatCountUpdated
             [("chat_list_type", Variant.vStr "chatListMain")]]) :=
  ⟨C8.1 _ _ (by simp [mapValue, Variant.toString]),
   C8.2.1 _ _ (by simp [mapValue, Variant.toString]),
   C8.2.2.1 _ _ (by simp [mapValue, Variant.toString]),
   C8.2.2.2 _ _ (by simp [mapValue, Variant.toString])⟩

/-- C10: an authorization-state update whose state string is not one of
the eleven recognized `authorizationState*` values leaves the stored
authorization state (and the whole wrapper state) unchanged, yet still
emits `authorizationStateChanged` carrying that unchanged previous
state. -/
theorem C10 (st : WrapperState) (s : String)
    (h : s ∉ recognizedAuthorizationStateStrings) :
    handleAuthorizationStateChanged st s
      = (st, [Signal.authorizationStateChanged st.authorizationState]) := by
  simp only [recognizedAuthorizationStateStrings, List.mem_cons,
    List.not_mem_nil, or_false, not_or] at h
  obtain ⟨h1, h2, h3, h4, h5, h6, h7, h8, h9, h10, h11⟩ := h
  simp [handleAuthorizationStateChanged, h1, h2, h3, h4, h5, h6, h7, h8,
    h9, h10, h11]

/-- C10 (witness): the unrecognized string
`authorizationStateFrobnicated` leaves the state untouched and emits the
previous (initial) authorization state. -/
theorem C10_witness :
    handleAuthorizationStateChanged emptyWrapperState
        "authorizationStateFrobnicated"
      = (emptyWrapperState,
         [Signal.authorizationStateChanged
             emptyWrapperState.authorizationState]) :=
  C10 emptyWrapperState "authorizationStateFrobnicated" (by decide)

/-- C7: `chatMemberStatus` yields `ChatMemberStatusUnknown` for a group
whose metadata has no `status` field and for a group whose
`status.@type` string lies outside the recognized set; each of the six
recognized strings maps to its corresponding enumeration value. -/
theorem C7 :
    (∀ g : Group, mapContains g.groupInfo "status" = false →
        g.chatMemberStatus = .ChatMemberStatusUnknown)
    ∧ (∀ g : Group, g.statusType ∉ recognizedMemberStatusStrings →
        g.chatMemberStatus = .ChatMemberStatusUnknown)
    ∧ (∀ g : Group, g.statusType = "chatMemberStatusMember" →
        g.chatMemberStatus = .ChatMemberStatusMember)
    ∧ (∀ g : Group, g.statusType = "chatMemberStatusLeft" →
        g.chatMemberStatus = .ChatMemberStatusLeft)
    ∧ (∀ g : Group, g.statusType = "chatMemberStatusCreator" →
        g.chatMemberStatus = .ChatMemberStatusCreator)
    ∧ (∀ g : Group, g.statusType = "chatMemberStatusAdministrator" →
        g.chatMemberStatus = .ChatMemberStatusAdministrator)
    ∧ (∀ g : Group, g.statusType = "chatMemberStatusRestricted" →
        g.chatMemberStatus = .ChatMemberStatusRestricted)
    ∧ (∀ g : Group, g.statusType = "chatMemberStatusBanned" →
        g.chatMemberStatus = .ChatMemberStatusBanned) := by
  refine ⟨?_, ?_, ?_, ?_, ?_, ?_, ?_, ?_⟩
  · intro g h
    unfold Group.chatMemberStatus Group.statusType
    rw [mapValue_of_not_mapContains _ _ h]
    decide
  · intro g h
    simp only [recognizedMemberStatusStrings, List.mem_cons,
      List.not_mem_nil, or_false, not_or] at h
    obtain ⟨h1, h2, h3, h4, h5, h6⟩ := h
    by_cases he : g.statusType.isEmpty <;>
      simp [Group.chatMemberStatus, he, chatMemberStatusFromString,
        h1, h2, h3, h4, h5, h6]
  all_goals
    intro g h
    unfold Group.chatMemberStatus
    rw [h]
    decide

/-- C7 (witness): a group with no `status` field and a group with the
unrecognized string `chatMemberStatusFrobnicated` both yield
`ChatMemberStatusUnknown`; a group with `chatMemberStatusMember` yields
`ChatMemberStatusMember`. -/
theorem C7_witness :
    Group.chatMemberStatus ⟨1, []⟩ = .ChatMemberStatusUnknown
    ∧ Group.chatMemberStatus
        ⟨2, [("status", Variant.vMap
            [("@type", Variant.vStr "chatMemberStatusFrobnicated")])]⟩
      = .ChatMemberStatusUnknown
    ∧ Group.chatMemberStatus
        ⟨3, [("status", Variant.vMap
            [("@type", Variant.vStr "chatMemberStatusMember")])]⟩
      = .ChatMemberStatusMember :=
  ⟨C7.1 _ rfl, C7.2.1 _ (by decide), C7.2.2.1 _ rfl⟩

theorem allUsers_handleUserStatusUpdated (st : WrapperState) (uid : String)
    (S : VariantMap) :
    (handleUserStatusUpdated st uid S).1.allUsers
      = mapInsert uid
          (.vMap (mapInsert "status" (.vMap S)
              (mapValue st.allUsers uid).toMap))
          st.allUsers := by
  by_cases h : uid = (mapValue st.options "my_id").toString <;>
    simp [handleUserStatusUpdated, h]

theorem applyStatusList_allUsers (uid : String) (ss : List VariantMap) :
    ∀ (st : WrapperState) (R : VariantMap),
      mapValue st.allUsers uid = .vMap R →
      mapValue (applyStatusList st uid ss).allUsers uid
        = .vMap (ss.foldl (fun r S => mapInsert "status" (.vMap S) r) R) := by
  induction ss with
  | nil =>
      intro st R h
      simpa [applyStatusList] using h
  | cons S ss ih =>
      intro st R h
      have hstep : mapValue (handleUserStatusUpdated st uid S).1.allUsers uid
          = .vMap (mapInsert "status" (.vMap S) R) := by
        rw [allUsers_handleUserStatusUpdated, mapValue_mapInsert_self, h]
        rfl
      have := ih _ _ hstep
      simpa [applyStatusList, List.foldl] using this

theorem foldl_status_append (ss : List VariantMap) (S : VariantMap) :
    ∀ R : VariantMap,
      (ss ++ [S]).foldl (fun r S' => mapInsert "status" (.vMap S') r) R
        = mapInsert "status" (.vMap S) R := by
  induction ss with
  | nil => intro R; simp [List.foldl]
  | cons S₀ ss ih =>
      intro R
      simp only [List.cons_append, List.foldl_cons]
      rw [ih, mapInsert_mapInsert_same]

/-- C3 (counterexample): starting from an empty state, a status update
for user `"7"` followed by a full-user update for `"7"` leaves the final
record's `status` field null (wiped by the wholesale full-update
replace), not equal to the last status update — refuting the claim that
the `status` field comes from the last status update regardless of
interleaving order. -/
theorem C3_counterexample :
    mapValue
        (getUserInformationFor
          ((handleUserUpdated
              ((handleUserStatusUpdated emptyWrapperState "7"
                  [("@type", Variant.vStr "userStatusOnline")]).1)
              [("id", Variant.vStr "7"),
               ("first_name", Variant.vStr "x")]).1)
          "7")
        "status"
      = Variant.vNull
    ∧ Variant.vNull
        ≠ Variant.vMap [("@type", Variant.vStr "userStatusOnline")] :=
  ⟨rfl, fun h => Variant.noConfusion h⟩

/-- C3 (amended): a status update replaces only the `status` sub-field of
the target user's record, leaves other users' records untouched, and
refreshes the own-user slot identically when the id equals the stored
`my_id` value; and the claimed interleaving consequence holds only for
status updates arriving after the last full-user update: a full-user
update for the id followed by any nonempty run of status updates leaves
the non-status fields of the record equal to the full update's payload
and the `status` field equal to the last status update, whereas a
full-user update wholesale-replaces the record, discarding any earlier
status update (see the counterexample). -/
theorem C3_amended :
    (∀ (st : WrapperState) (uid : String) (S : VariantMap) (k : String),
        k ≠ "status" →
        mapValue (getUserInformationFor
            (handleUserStatusUpdated st uid S).1 uid) k
          = mapValue (getUserInformationFor st uid) k)
    ∧ (∀ (st : WrapperState) (uid : String) (S : VariantMap),
        mapValue (getUserInformationFor
            (handleUserStatusUpdated st uid S).1 uid) "status"
          = .vMap S)
    ∧ (∀ (st : WrapperState) (uid : String) (S : VariantMap)
          (uid' : String), uid' ≠ uid →
        mapValue (handleUserStatusUpdated st uid S).1.allUsers uid'
          = mapValue st.allUsers uid')
    ∧ (∀ (st : WrapperState) (uid : String) (S : VariantMap),
        uid = (mapValue st.options "my_id").toString →
        getUserInformation (handleUserStatusUpdated st uid S).1
          = mapInsert "status" (.vMap S) (getUserInformation st))
    ∧ (∀ (st : WrapperState) (F : VariantMap) (ss : List VariantMap)
          (S : VariantMap),
        getUserInformationFor
            (applyStatusList (handleUserUpdated st F).1
              (mapValue F "id").toString (ss ++ [S]))
            (mapValue F "id").toString
          = mapInsert "status" (.vMap S) F) := by
  refine ⟨?_, ?_, ?_, ?_, ?_⟩
  · intro st uid S k hk
    unfold getUserInformationFor
    rw [allUsers_handleUserStatusUpdated, mapValue_mapInsert_self]
    simp [Variant.toMap, mapValue_mapInsert_ne _ _ _ _ hk]
  · intro st uid S
    unfold getUserInformationFor
    rw [allUsers_handleUserStatusUpdated, mapValue_mapInsert_self]
    simp [Variant.toMap, mapValue_mapInsert_self]
  · intro st uid S uid' h
    rw [allUsers_handleUserStatusUpdated, mapValue_mapInsert_ne _ _ _ _ h]
  · intro st uid S h
    simp [handleUserStatusUpdated, getUserInformation, h]
  · intro st F ss S
    have hbase : mapValue ((handleUserUpdated st F).1).allUsers
        (mapValue F "id").toString = .vMap F := by
      by_cases h :
          (mapValue F "id").toString
            = (mapValue st.options "my_id").toString <;>
        simp [handleUserUpdated, h, mapValue_mapInsert_self]
    unfold getUserInformationFor
    rw [applyStatusList_allUsers _ _ _ _ hbase, foldl_status_append]
    rfl

/-- C3 (witness): the frame part at a concrete one-user store, and the
full-update-then-status-update run at concrete payloads. -/
theorem C3_witness :
    mapValue
        (getUserInformationFor
          (handleUserStatusUpdated
              { emptyWrapperState with allUsers :=
                  [("7", Variant.vMap
                      [("first_name", Variant.vStr "x")])] }
              "7" [("@type", Variant.vStr "userStatusOnline")]).1
          "7")
        "first_name"
      = mapValue
          (getUserInformationFor
            { emptyWrapperState with allUsers :=
                [("7", Variant.vMap
                    [("first_name", Variant.vStr "x")])] }
            "7")
          "first_name"
    ∧ getUserInformationFor
          (applyStatusList
            (handleUserUpdated emptyWrapperState
                [("id", Variant.vStr "7"),
                 ("first_name", Variant.vStr "x")]).1
            "7"
            ([] ++ [[("@type", Variant.vStr "userStatusOnline")]]))
          "7"
        = mapInsert "status"
            (.vMap [("@type", Variant.vStr "userStatusOnline")])
            [("id", Variant.vStr "7"), ("first_name", Variant.vStr "x")] :=
  ⟨C3_amended.1 _ "7" _ "first_name" (by decide),
   C3_amended.2.2.2.2 emptyWrapperState
     [("id", Variant.vStr "7"), ("first_name", Variant.vStr "x")]
     [] [("@type", Variant.vStr "userStatusOnline")]⟩

/-- C4: once the stored `my_id` option equals `v`, a full-user update
whose id is `v` is mirrored into the own-user slot (the argument-less
`getUserInformation` returns the update); but a full-user update whose
id differs from the `my_id` value stored at the time it arrives is not
mirrored, and a later resolution of `my_id` does not retroactively copy
it into the own-user slot. -/
theorem C4 :
    (∀ (st : WrapperState) (F : VariantMap) (v : String),
        (mapValue F "id").toString = v →
        getUserInformation
            (handleUserUpdated
              (handleOptionUpdated st "my_id" (.vStr v)).1 F).1
          = F)
    ∧ (∀ (st : WrapperState) (F : VariantMap) (v : Variant),
        (mapValue F "id").toString
            ≠ (mapValue st.options "my_id").toString →
        getUserInformation
            (handleOptionUpdated (handleUserUpdated st F).1 "my_id" v).1
          = getUserInformation st) := by
  constructor
  · intro st F v h
    simp only [Variant.toString] at h
    simp [handleOptionUpdated, handleUserUpdated, getUserInformation, h,
      mapValue_mapInsert_self, Variant.toString]
  · intro st F v h
    simp [handleOptionUpdated, handleUserUpdated, getUserInformation, h]

/-- C4 (witness): recording `my_id = "42"` then updating user `"42"`
fills the own-user slot with the update; updating user `"42"` while
`my_id` is still unset and only then recording `my_id = "42"` leaves the
own-user slot empty. -/
theorem C4_witness :
    getUserInformation
        (handleUserUpdated
          (handleOptionUpdated emptyWrapperState "my_id"
              (.vStr "42")).1
          [("id", Variant.vStr "42"), ("first_name", Variant.vStr "A")]).1
      = [("id", Variant.vStr "42"), ("first_name", Variant.vStr "A")]
    ∧ getUserInformation
        (handleOptionUpdated
          (handleUserUpdated emptyWrapperState
              [("id", Variant.vStr "42"),
               ("first_name", Variant.vStr "A")]).1
          "my_id" (.vStr "42")).1
      = getUserInformation emptyWrapperState :=
  ⟨C4.1 emptyWrapperState
      [("id", Variant.vStr "42"), ("first_name", Variant.vStr "A")]
      "42" rfl,
   C4.2 emptyWrapperState
      [("id", Variant.vStr "42"), ("first_name", Variant.vStr "A")]
      (.vStr "42") (by decide)⟩

end TDLibWrapper
